import Mathlib

set_option maxHeartbeats 1000000

/-!
Shallow embedding of the provisioning state machine of AyresWiFiManager
(src/AyresWiFiManager.cpp, src/AyresWiFiManager.h, version 2.0.2).

The manager is single-threaded and tick-driven; its mutable member fields are
modelled as one state record, and each member function that the claims touch
becomes a Lean function from a state (plus the external inputs it reads:
the millisecond clock, the radio link status, the soft-AP station count,
the filesystem, the result of a blocking connect attempt) to a new state and
its observable decision.  Timestamps are naturals: every scenario considered
here is monotone in time, so 32-bit wraparound never separates the model
from the device.  The one 8-bit counter (`failCount`) keeps its mod-256
arithmetic.
-/

namespace AWM

/-- Enum `FallbackPolicy` from AyresWiFiManager.h (NO_CREDENTIALS_ONLY is the
default). -/
inductive FallbackPolicy where
  | ON_FAIL
  | NO_CREDENTIALS_ONLY
  | SMART_RETRIES
  | BUTTON_ONLY
  | NEVER
  deriving DecidableEq, Repr

/-- Member fields of the manager that the provisioning state machine reads and
writes (AyresWiFiManager.h, private data section).  Radio/LED/DNS hardware
side effects are not state here except for the booleans the code itself
keeps (`portalActive`, `dnsRunning`). -/
structure WMState where
  ssid : String
  password : String
  portalActive : Bool
  dnsRunning : Bool
  captiveEnabled : Bool
  portalTimeoutMs : Nat
  apClientCheck : Bool
  webClientCheck : Bool
  portalStart : Nat
  lastHttpAccess : Nat
  fallbackPolicy : FallbackPolicy
  allowButtonPortal : Bool
  maxFailRetries : Nat
  failWindowMs : Nat
  failCount : Nat
  failWindowStart : Nat
  connected : Bool
  autoReconnect : Bool
  ultimoIntentoWiFi : Nat
  reconnectBackoffMs : Nat
  reconnectAttemptMs : Nat
  externalApActive : Bool
  deriving DecidableEq, Repr

/-- The in-class initializers of AyresWiFiManager.h. -/
def initState : WMState where
  ssid := ""
  password := ""
  portalActive := false
  dnsRunning := false
  captiveEnabled := true
  portalTimeoutMs := 0
  apClientCheck := false
  webClientCheck := true
  portalStart := 0
  lastHttpAccess := 0
  fallbackPolicy := FallbackPolicy.NO_CREDENTIALS_ONLY
  allowButtonPortal := true
  maxFailRetries := 3
  failWindowMs := 60000
  failCount := 0
  failWindowStart := 0
  connected := false
  autoReconnect := true
  ultimoIntentoWiFi := 0
  reconnectBackoffMs := 10000
  reconnectAttemptMs := 5000
  externalApActive := false

/-- Setter `setReconnectBackoffMs` (cpp line 115): values below 1000 ms are clamped
to 1000 ("sanity min 1s"). -/
def setReconnectBackoffMs (s : WMState) (ms : Nat) : WMState :=
  { s with reconnectBackoffMs := if ms < 1000 then 1000 else ms }

/-- Setter `setReconnectAttemptMs` (cpp line 119): same 1000 ms floor. -/
def setReconnectAttemptMs (s : WMState) (ms : Nat) : WMState :=
  { s with reconnectAttemptMs := if ms < 1000 then 1000 else ms }

/-- Setter `setPortalTimeout` (cpp line 101): seconds to milliseconds in a uint32. -/
def setPortalTimeout (s : WMState) (seconds : Nat) : WMState :=
  { s with portalTimeoutMs := (seconds * 1000) % 2 ^ 32 }

/-- Setter `setAPClientCheck` (cpp line 102). -/
def setAPClientCheck (s : WMState) (enabled : Bool) : WMState :=
  { s with apClientCheck := enabled }

/-- Setter `setWebClientCheck` (cpp line 103). -/
def setWebClientCheck (s : WMState) (enabled : Bool) : WMState :=
  { s with webClientCheck := enabled }

/-- Setter `setCaptivePortal` (cpp line 100). -/
def setCaptivePortal (s : WMState) (enabled : Bool) : WMState :=
  { s with captiveEnabled := enabled }

/-- Setter `setFallbackPolicy` (cpp line 108). -/
def setFallbackPolicy (s : WMState) (p : FallbackPolicy) : WMState :=
  { s with fallbackPolicy := p }

/-- Setter `setSmartRetries` (cpp line 109); `maxRetries` is a uint8 on the device. -/
def setSmartRetries (s : WMState) (maxRetries windowMs : Nat) : WMState :=
  { s with maxFailRetries := maxRetries % 256, failWindowMs := windowMs % 2 ^ 32 }

/-- Setter `enableButtonPortal` (cpp line 112). -/
def enableButtonPortal (s : WMState) (enable : Bool) : WMState :=
  { s with allowButtonPortal := enable }

/-- Setter `setAutoReconnect` (cpp line 834). -/
def setAutoReconnect (s : WMState) (enable : Bool) : WMState :=
  { s with autoReconnect := enable }

/-- Setter `setExternalApActive` (cpp line 124). -/
def setExternalApActive (s : WMState) (active : Bool) : WMState :=
  { s with externalApActive := active }

/-- Function `startPortal` (cpp lines 312-327): no-op when the portal is already
active; otherwise starts the surface, leaves `dnsRunning` equal to
`captiveEnabled` (startDNS / stopDNS), and records
`portalStart = lastHttpAccess = millis()` with `portalActive = true`. -/
def startPortal (s : WMState) (now : Nat) : WMState :=
  if s.portalActive = true then s
  else
    { s with
      dnsRunning := s.captiveEnabled
      portalActive := true
      portalStart := now
      lastHttpAccess := now }

/-- Function `stopPortal` (cpp lines 329-353): no-op when inactive; otherwise stops
DNS and HTTP and clears `portalActive` (radio-mode restoration is a hardware
side effect). -/
def stopPortal (s : WMState) : WMState :=
  if s.portalActive = false then s
  else { s with dnsRunning := false, portalActive := false }

/-- Function `portalHasTimedOut` (cpp lines 375-385).  Inputs: the clock and the
soft-AP station count.  Returns the decision and the state (the AP-client
branch writes `portalStart`). -/
def portalHasTimedOut (s : WMState) (now stationCount : Nat) : Bool × WMState :=
  if s.portalTimeoutMs = 0 then (false, s)
  else if s.apClientCheck = true ∧ 0 < stationCount then
    (false, { s with portalStart := now })
  else
    let base := if s.webClientCheck = true then s.lastHttpAccess else s.portalStart
    (decide (s.portalTimeoutMs < now - base), s)

/-- The portal-timeout part of `update` (cpp lines 245-248):
`if (portalActive && portalHasTimedOut()) stopPortal();`. -/
def updatePortalCheck (s : WMState) (now stationCount : Nat) : WMState :=
  if s.portalActive = true then
    let r := portalHasTimedOut s now stationCount
    if r.1 = true then stopPortal r.2 else r.2
  else s

/-- The check that ssid and password are both non-empty, as used by
`reintentarConexionSiNecesario` (cpp line 643). -/
def hasNonEmptyCreds (s : WMState) : Bool :=
  !(s.ssid == "") && !(s.password == "")

/-- Function `tieneCredenciales` (cpp lines 537-539): the file `/wifi.json` exists
(an external filesystem input) and both loaded fields are non-empty. -/
def tieneCredenciales (s : WMState) (wifiJsonExists : Bool) : Bool :=
  wifiJsonExists && hasNonEmptyCreds s

/-- Result of the blocking `connectToWiFi` (cpp lines 596-621): `false`
immediately without credentials, otherwise the outcome of the bounded
attempt (an external input here); `connected` is set accordingly. -/
def connectToWiFiOutcome (s : WMState) (wifiJsonExists attemptOk : Bool) : Bool :=
  tieneCredenciales s wifiJsonExists && attemptOk

/-- The SMART_RETRIES failure bookkeeping of
`reintentarConexionSiNecesario` (cpp lines 669-683), run after a failed
reconnect attempt at clock value `now`: reset the window when none is open
(`failWindowStart == 0`) or when more than `failWindowMs` elapsed since it
started; increment the 8-bit `failCount`; once `failCount >= maxFailRetries`
open the portal and zero the window.  The boolean reports whether
`startPortal` was invoked (the observable portal-open request). -/
def smartRetryOnFail (s : WMState) (now : Nat) : WMState × Bool :=
  if s.fallbackPolicy = FallbackPolicy.SMART_RETRIES then
    let s1 :=
      if s.failWindowStart = 0 ∨ s.failWindowMs < now - s.failWindowStart then
        { s with failWindowStart := now, failCount := 0 }
      else s
    let s2 := { s1 with failCount := (s1.failCount + 1) % 256 }
    if s2.maxFailRetries ≤ s2.failCount then
      ({ startPortal s2 now with failCount := 0, failWindowStart := 0 }, true)
    else (s2, false)
  else (s, false)

/-- Function `reintentarConexionSiNecesario` (cpp lines 632-685).  External inputs:
the clock `now` at entry, the link status `wifiConnected`, the outcome
`attemptOk` of the bounded reconnect attempt, and the clock value
`nowAfterAttempt` once the attempt window has elapsed.  The boolean result
records whether a connection attempt was actually begun (`WiFi.begin`). -/
def reintentarConexionSiNecesario (s : WMState) (now : Nat)
    (wifiConnected attemptOk : Bool) (nowAfterAttempt : Nat) : WMState × Bool :=
  if s.autoReconnect = false then (s, false)
  else if wifiConnected = true then ({ s with connected := true }, false)
  else
    let s1 := { s with connected := false }
    if now - s1.ultimoIntentoWiFi < s1.reconnectBackoffMs then (s1, false)
    else
      let s2 := { s1 with ultimoIntentoWiFi := now }
      if hasNonEmptyCreds s2 = true then
        if attemptOk = true then
          ({ s2 with connected := true, failCount := 0, failWindowStart := 0 }, true)
        else ((smartRetryOnFail s2 nowAfterAttempt).1, true)
      else (s2, false)

/-- The fallback-policy tail of the startup decision cycle `run`
(cpp lines 202-235): on a successful connect, record it and stop; otherwise
apply the policy switch. -/
def runDecisionCycle (s : WMState) (wifiJsonExists attemptOk : Bool)
    (now : Nat) : WMState :=
  if connectToWiFiOutcome s wifiJsonExists attemptOk = true then
    { s with connected := true }
  else
    let s1 := { s with connected := false }
    match s.fallbackPolicy with
    | FallbackPolicy.ON_FAIL => startPortal s1 now
    | FallbackPolicy.NO_CREDENTIALS_ONLY =>
        if tieneCredenciales s wifiJsonExists = false then startPortal s1 now
        else s1
    | FallbackPolicy.SMART_RETRIES => s1
    | FallbackPolicy.BUTTON_ONLY => s1
    | FallbackPolicy.NEVER => s1

/-- One iteration of the button-hold loop of `run` (cpp lines 177-191),
keyed by the held duration sampled at that iteration: at or past 5000 ms
the loop erases credentials and restarts the device at once; from 2000 ms
it shows the double-blink (portal) feedback; below that the fast blink. -/
inductive HoldStep where
  | eraseRestartNow
  | feedbackDouble
  | feedbackFast
  deriving DecidableEq, Repr

/-- The classification chain inside the hold loop (cpp lines 179-189). -/
def holdLoopBody (heldMs : Nat) : HoldStep :=
  if 5000 ≤ heldMs then HoldStep.eraseRestartNow
  else if 2000 ≤ heldMs then HoldStep.feedbackDouble
  else HoldStep.feedbackFast

/-- The release check of `run` (cpp line 193):
`held >= 2000 && held < 5000 && allowButtonPortal` opens the portal. -/
def releaseOpensPortal (heldMs : Nat) (allowButtonPortal : Bool) : Bool :=
  decide (2000 ≤ heldMs) && decide (heldMs < 5000) && allowButtonPortal

/-- Outcome of a complete button gesture. -/
inductive GestureOutcome where
  | eraseRestart
  | openPortal
  | noAction
  deriving DecidableEq, Repr

/-- The hold loop of `run` (cpp lines 176-199) over the monotone sequence of
held-duration samples read while the button stays pressed, followed by the
held duration measured at release: the first sample at or past 5000 ms
erases and restarts immediately, consuming no further input; otherwise the
release check decides. -/
def runHoldLoop : List Nat → Nat → Bool → GestureOutcome
  | [], releaseHeldMs, allowButtonPortal =>
      if releaseOpensPortal releaseHeldMs allowButtonPortal = true then
        GestureOutcome.openPortal
      else GestureOutcome.noAction
  | h :: rest, releaseHeldMs, allowButtonPortal =>
      match holdLoopBody h with
      | HoldStep.eraseRestartNow => GestureOutcome.eraseRestart
      | _ => runHoldLoop rest releaseHeldMs allowButtonPortal

/-- Iterated SMART_RETRIES failures: fold `smartRetryOnFail` over a list of
failure times, counting how many portal-open requests were issued. -/
def smartFailSeq (s : WMState) (ts : List Nat) : WMState × Nat :=
  ts.foldl
    (fun p t =>
      let r := smartRetryOnFail p.1 t
      (r.1, p.2 + if r.2 = true then 1 else 0))
    (s, 0)

/-- A device configured for SMART_RETRIES, otherwise at the header
defaults (`maxFailRetries = 3`, `failWindowMs = 60000`, empty failure
window, portal closed). -/
def smartConfigState : WMState :=
  { initState with fallbackPolicy := FallbackPolicy.SMART_RETRIES }

/-- An open portal with a 30 s timeout, opened at t = 100 ms, with the
default checks (`webClientCheck` on, `apClientCheck` off). -/
def openPortalState : WMState :=
  { initState with
    portalActive := true
    portalTimeoutMs := 30000
    portalStart := 100
    lastHttpAccess := 100 }

/-- An open portal with `apClientCheck` on and no timeout configured
(`portalTimeoutMs = 0`), opened at t = 5 ms. -/
def apCheckNoTimeoutState : WMState :=
  { initState with
    portalActive := true
    apClientCheck := true
    portalTimeoutMs := 0
    portalStart := 5
    lastHttpAccess := 5 }

/-- An open portal with `apClientCheck` on and a 30 s timeout. -/
def apCheckTimeoutState : WMState :=
  { initState with
    portalActive := true
    apClientCheck := true
    portalTimeoutMs := 30000
    portalStart := 5
    lastHttpAccess := 5 }

/-- A manager holding two accumulated SMART_RETRIES failures
(`failCount = 2`, window opened at t = 5 ms), currently connected. -/
def twoFailuresState : WMState :=
  { initState with failCount := 2, failWindowStart := 5 }

/-- A manager with stored credentials, otherwise at the defaults. -/
def credentialedState : WMState :=
  { initState with ssid := "homenet", password := "hunter2" }

-- ===================== theorems =====================

/-- Neither reconnect-timing field is written by `startPortal`. -/
theorem startPortal_keeps_reconnect_cfg (s : WMState) (t : Nat) :
    (startPortal s t).reconnectBackoffMs = s.reconnectBackoffMs
    ∧ (startPortal s t).reconnectAttemptMs = s.reconnectAttemptMs := by
  unfold startPortal
  split <;> exact ⟨rfl, rfl⟩

/-- Neither reconnect-timing field is written by `stopPortal`. -/
theorem stopPortal_keeps_reconnect_cfg (s : WMState) :
    (stopPortal s).reconnectBackoffMs = s.reconnectBackoffMs
    ∧ (stopPortal s).reconnectAttemptMs = s.reconnectAttemptMs := by
  unfold stopPortal
  split <;> exact ⟨rfl, rfl⟩

/-- Neither reconnect-timing field is written by `portalHasTimedOut`. -/
theorem portalHasTimedOut_keeps_reconnect_cfg (s : WMState) (now st : Nat) :
    (portalHasTimedOut s now st).2.reconnectBackoffMs = s.reconnectBackoffMs
    ∧ (portalHasTimedOut s now st).2.reconnectAttemptMs = s.reconnectAttemptMs := by
  unfold portalHasTimedOut
  split_ifs <;> exact ⟨rfl, rfl⟩

/-- Neither reconnect-timing field is written by the portal-timeout part of
`update`. -/
theorem updatePortalCheck_keeps_reconnect_cfg (s : WMState) (now st : Nat) :
    (updatePortalCheck s now st).reconnectBackoffMs = s.reconnectBackoffMs
    ∧ (updatePortalCheck s now st).reconnectAttemptMs = s.reconnectAttemptMs := by
  have h := portalHasTimedOut_keeps_reconnect_cfg s now st
  have h2 := stopPortal_keeps_reconnect_cfg (portalHasTimedOut s now st).2
  simp only [updatePortalCheck]
  split_ifs
  · exact ⟨h2.1.trans h.1, h2.2.trans h.2⟩
  · exact h
  · exact ⟨rfl, rfl⟩

/-- Function `smartRetryOnFail` only writes the failure window, `failCount` and the
portal fields; in particular `autoReconnect`, `ultimoIntentoWiFi` and the
reconnect-timing configuration are untouched. -/
theorem smartRetryOnFail_frame (s : WMState) (now : Nat) :
    (smartRetryOnFail s now).1.autoReconnect = s.autoReconnect
    ∧ (smartRetryOnFail s now).1.ultimoIntentoWiFi = s.ultimoIntentoWiFi
    ∧ (smartRetryOnFail s now).1.reconnectBackoffMs = s.reconnectBackoffMs
    ∧ (smartRetryOnFail s now).1.reconnectAttemptMs = s.reconnectAttemptMs := by
  obtain ⟨a1, a2, a3, a4, a5, a6, a7, a8, a9, a10, a11, a12, a13, a14, a15, a16,
    a17, a18, a19, a20, a21, a22⟩ := s
  simp only [smartRetryOnFail, startPortal]
  split_ifs <;> exact ⟨rfl, rfl, rfl, rfl⟩

/-- The reconnection driver never writes `autoReconnect` or the
reconnect-timing configuration. -/
theorem reintentar_frame (s : WMState) (now : Nat) (wc ok : Bool) (na : Nat) :
    (reintentarConexionSiNecesario s now wc ok na).1.autoReconnect = s.autoReconnect
    ∧ (reintentarConexionSiNecesario s now wc ok na).1.reconnectBackoffMs
        = s.reconnectBackoffMs
    ∧ (reintentarConexionSiNecesario s now wc ok na).1.reconnectAttemptMs
        = s.reconnectAttemptMs := by
  simp only [reintentarConexionSiNecesario]
  split_ifs <;>
    first
      | exact ⟨rfl, rfl, rfl⟩
      | exact ⟨(smartRetryOnFail_frame _ _).1, (smartRetryOnFail_frame _ _).2.2.1,
          (smartRetryOnFail_frame _ _).2.2.2⟩

/-- The startup decision cycle never writes the reconnect-timing
configuration. -/
theorem runDecisionCycle_keeps_reconnect_cfg (s : WMState) (fs ok : Bool) (now : Nat) :
    (runDecisionCycle s fs ok now).reconnectBackoffMs = s.reconnectBackoffMs
    ∧ (runDecisionCycle s fs ok now).reconnectAttemptMs = s.reconnectAttemptMs := by
  obtain ⟨a1, a2, a3, a4, a5, a6, a7, a8, a9, a10, a11, a12, a13, a14, a15, a16,
    a17, a18, a19, a20, a21, a22⟩ := s
  cases a11 <;>
    simp only [runDecisionCycle, connectToWiFiOutcome, tieneCredenciales,
      hasNonEmptyCreds, startPortal] <;>
    split_ifs <;> exact ⟨rfl, rfl⟩

/-- Claim C8: `startPortal` is idempotent — a second open with no
intervening close changes nothing; an open on an already-active portal is a
no-op (it does not refresh `portalStart` or `lastHttpAccess`); a first open
records `portalStart = lastHttpAccess = now` and sets the portal active. -/
theorem startPortal_idempotent (s : WMState) (t1 t2 : Nat) :
    startPortal (startPortal s t1) t2 = startPortal s t1
    ∧ startPortal { s with portalActive := true } t1 = { s with portalActive := true }
    ∧ (startPortal s t1).portalActive = true
    ∧ (startPortal s t1).portalStart =
        (if s.portalActive = true then s.portalStart else t1)
    ∧ (startPortal s t1).lastHttpAccess =
        (if s.portalActive = true then s.lastHttpAccess else t1) := by
  cases h : s.portalActive <;> simp [startPortal, h]

/-- Claim C9: the 1000 ms floor on the reconnect timing configuration —
both setters clamp to `max 1000 ms` (silently, never rejecting), the
initial values satisfy the floor, and no other modelled operation writes
either field. -/
theorem reconnect_floor_invariant (s : WMState) (ms seconds now na stations t : Nat)
    (wc ok en : Bool) (p : FallbackPolicy) :
    (setReconnectBackoffMs s ms).reconnectBackoffMs = max 1000 ms
    ∧ (setReconnectAttemptMs s ms).reconnectAttemptMs = max 1000 ms
    ∧ 1000 ≤ (setReconnectBackoffMs s ms).reconnectBackoffMs
    ∧ 1000 ≤ (setReconnectAttemptMs s ms).reconnectAttemptMs
    ∧ (setReconnectBackoffMs s ms).reconnectAttemptMs = s.reconnectAttemptMs
    ∧ (setReconnectAttemptMs s ms).reconnectBackoffMs = s.reconnectBackoffMs
    ∧ 1000 ≤ initState.reconnectBackoffMs
    ∧ 1000 ≤ initState.reconnectAttemptMs
    ∧ (startPortal s t).reconnectBackoffMs = s.reconnectBackoffMs
    ∧ (startPortal s t).reconnectAttemptMs = s.reconnectAttemptMs
    ∧ (stopPortal s).reconnectBackoffMs = s.reconnectBackoffMs
    ∧ (stopPortal s).reconnectAttemptMs = s.reconnectAttemptMs
    ∧ (portalHasTimedOut s now stations).2.reconnectBackoffMs = s.reconnectBackoffMs
    ∧ (portalHasTimedOut s now stations).2.reconnectAttemptMs = s.reconnectAttemptMs
    ∧ (updatePortalCheck s now stations).reconnectBackoffMs = s.reconnectBackoffMs
    ∧ (updatePortalCheck s now stations).reconnectAttemptMs = s.reconnectAttemptMs
    ∧ (smartRetryOnFail s now).1.reconnectBackoffMs = s.reconnectBackoffMs
    ∧ (smartRetryOnFail s now).1.reconnectAttemptMs = s.reconnectAttemptMs
    ∧ (reintentarConexionSiNecesario s now wc ok na).1.reconnectBackoffMs
        = s.reconnectBackoffMs
    ∧ (reintentarConexionSiNecesario s now wc ok na).1.reconnectAttemptMs
        = s.reconnectAttemptMs
    ∧ (runDecisionCycle s wc ok now).reconnectBackoffMs = s.reconnectBackoffMs
    ∧ (runDecisionCycle s wc ok now).reconnectAttemptMs = s.reconnectAttemptMs
    ∧ (setPortalTimeout s seconds).reconnectBackoffMs = s.reconnectBackoffMs
    ∧ (setPortalTimeout s seconds).reconnectAttemptMs = s.reconnectAttemptMs
    ∧ (setAPClientCheck s en).reconnectBackoffMs = s.reconnectBackoffMs
    ∧ (setWebClientCheck s en).reconnectBackoffMs = s.reconnectBackoffMs
    ∧ (setCaptivePortal s en).reconnectBackoffMs = s.reconnectBackoffMs
    ∧ (setFallbackPolicy s p).reconnectBackoffMs = s.reconnectBackoffMs
    ∧ (setSmartRetries s ms t).reconnectBackoffMs = s.reconnectBackoffMs
    ∧ (enableButtonPortal s en).reconnectBackoffMs = s.reconnectBackoffMs
    ∧ (setAutoReconnect s en).reconnectBackoffMs = s.reconnectBackoffMs
    ∧ (setExternalApActive s en).reconnectBackoffMs = s.reconnectBackoffMs
    ∧ (setAPClientCheck s en).reconnectAttemptMs = s.reconnectAttemptMs
    ∧ (setWebClientCheck s en).reconnectAttemptMs = s.reconnectAttemptMs
    ∧ (setCaptivePortal s en).reconnectAttemptMs = s.reconnectAttemptMs
    ∧ (setFallbackPolicy s p).reconnectAttemptMs = s.reconnectAttemptMs
    ∧ (setSmartRetries s ms t).reconnectAttemptMs = s.reconnectAttemptMs
    ∧ (enableButtonPortal s en).reconnectAttemptMs = s.reconnectAttemptMs
    ∧ (setAutoReconnect s en).reconnectAttemptMs = s.reconnectAttemptMs
    ∧ (setExternalApActive s en).reconnectAttemptMs = s.reconnectAttemptMs := by
  have hclampB : (setReconnectBackoffMs s ms).reconnectBackoffMs = max 1000 ms := by
    rcases Nat.lt_or_ge ms 1000 with h | h <;>
      simp only [setReconnectBackoffMs, if_pos, if_neg, Nat.max_def] <;>
      split_ifs <;> omega
  have hclampA : (setReconnectAttemptMs s ms).reconnectAttemptMs = max 1000 ms := by
    rcases Nat.lt_or_ge ms 1000 with h | h <;>
      simp only [setReconnectAttemptMs, if_pos, if_neg, Nat.max_def] <;>
      split_ifs <;> omega
  refine ⟨hclampB, hclampA, ?_, ?_, rfl, rfl, by norm_num [initState],
    by norm_num [initState],
    (startPortal_keeps_reconnect_cfg s t).1, (startPortal_keeps_reconnect_cfg s t).2,
    (stopPortal_keeps_reconnect_cfg s).1, (stopPortal_keeps_reconnect_cfg s).2,
    (portalHasTimedOut_keeps_reconnect_cfg s now stations).1,
    (portalHasTimedOut_keeps_reconnect_cfg s now stations).2,
    (updatePortalCheck_keeps_reconnect_cfg s now stations).1,
    (updatePortalCheck_keeps_reconnect_cfg s now stations).2,
    (smartRetryOnFail_frame s now).2.2.1, (smartRetryOnFail_frame s now).2.2.2,
    (reintentar_frame s now wc ok na).2.1, (reintentar_frame s now wc ok na).2.2,
    (runDecisionCycle_keeps_reconnect_cfg s wc ok now).1,
    (runDecisionCycle_keeps_reconnect_cfg s wc ok now).2,
    rfl, rfl, rfl, rfl, rfl, rfl, rfl, rfl, rfl, rfl, rfl, rfl, rfl, rfl, rfl,
    rfl, rfl, rfl⟩
  · rw [hclampB]; exact Nat.le_max_left 1000 ms
  · rw [hclampA]; exact Nat.le_max_left 1000 ms

/-- Claim C1: starting from a closed portal, the startup decision cycle
opens the portal exactly as the fallback-policy table prescribes: only on a
failed connect outcome, and then only under ON_FAIL (unconditionally) or
under NO_CREDENTIALS_ONLY with no stored credential; SMART_RETRIES,
BUTTON_ONLY and NEVER never open it, and no policy opens it on success. -/
theorem run_fallback_policy_table (s : WMState) (fs ok : Bool) (now : Nat)
    (hpa : s.portalActive = false) :
    (runDecisionCycle s fs ok now).portalActive = true
    ↔ (connectToWiFiOutcome s fs ok = false
       ∧ (s.fallbackPolicy = FallbackPolicy.ON_FAIL
          ∨ (s.fallbackPolicy = FallbackPolicy.NO_CREDENTIALS_ONLY
             ∧ tieneCredenciales s fs = false))) := by
  rcases hfp : s.fallbackPolicy <;>
    rcases hok : connectToWiFiOutcome s fs ok <;>
    rcases hcr : tieneCredenciales s fs <;>
    simp [runDecisionCycle, startPortal, hfp, hok, hcr, hpa]

/-- Claim C1 witness: the default manager (no credential, policy
NO_CREDENTIALS_ONLY, portal closed) at a concrete failed startup. -/
theorem run_fallback_policy_table_witness :
    (runDecisionCycle initState false false 0).portalActive = true
    ↔ (connectToWiFiOutcome initState false false = false
       ∧ (initState.fallbackPolicy = FallbackPolicy.ON_FAIL
          ∨ (initState.fallbackPolicy = FallbackPolicy.NO_CREDENTIALS_ONLY
             ∧ tieneCredenciales initState false = false))) :=
  run_fallback_policy_table initState false false 0 rfl

/-- Claim C5: the gesture bands have inclusive lower bounds — a hold
sampled at 1999 ms is the short band (fast-blink feedback, and a release at
1999 ms has no side effect); 2000 ms and 4999 ms are the medium band
(double-blink feedback, and a release there opens the portal exactly when
`allowButtonPortal` is enabled); 5000 ms is the long band, which erases and
restarts immediately inside the hold loop, consuming no further input and
never reaching the release check. -/
theorem gesture_boundaries (allow : Bool) (rest : List Nat) (rel : Nat) :
    holdLoopBody 1999 = HoldStep.feedbackFast
    ∧ runHoldLoop [] 1999 allow = GestureOutcome.noAction
    ∧ holdLoopBody 2000 = HoldStep.feedbackDouble
    ∧ runHoldLoop [] 2000 allow =
        (if allow = true then GestureOutcome.openPortal else GestureOutcome.noAction)
    ∧ holdLoopBody 4999 = HoldStep.feedbackDouble
    ∧ runHoldLoop [] 4999 allow =
        (if allow = true then GestureOutcome.openPortal else GestureOutcome.noAction)
    ∧ holdLoopBody 5000 = HoldStep.eraseRestartNow
    ∧ runHoldLoop (5000 :: rest) rel allow = GestureOutcome.eraseRestart := by
  cases allow <;> exact ⟨rfl, rfl, rfl, rfl, rfl, rfl, rfl, rfl⟩

/-- Claim C3: on an active portal with no qualifying activity (no attached
AP client whenever the client check is on), a zero `portalTimeoutMs` never
closes the portal, and a positive `portalTimeoutMs` makes the tick close
the portal exactly when the elapsed time since the activity base
(`lastHttpAccess` when the web-client check is on, else `portalStart`)
strictly exceeds `portalTimeoutMs` — hence at or after the timeout has
elapsed and never strictly before. -/
theorem portal_timeout_monotone (s : WMState) (now stations : Nat)
    (hact : s.portalActive = true)
    (hcli : s.apClientCheck = true → stations = 0) :
    (s.portalTimeoutMs = 0 → (updatePortalCheck s now stations).portalActive = true)
    ∧ (0 < s.portalTimeoutMs →
        ((updatePortalCheck s now stations).portalActive = false ↔
          s.portalTimeoutMs <
            now - (if s.webClientCheck = true then s.lastHttpAccess
                   else s.portalStart))) := by
  constructor
  · intro h0
    simp [updatePortalCheck, portalHasTimedOut, hact, h0]
  · intro hpos
    have h0 : ¬(s.portalTimeoutMs = 0) := by omega
    have hnc : ¬(s.apClientCheck = true ∧ 0 < stations) := by
      rintro ⟨ha, hb⟩
      rw [hcli ha] at hb
      exact Nat.lt_irrefl 0 hb
    by_cases hcond : s.portalTimeoutMs <
        now - (if s.webClientCheck = true then s.lastHttpAccess else s.portalStart)
    · simp [updatePortalCheck, portalHasTimedOut, hact, h0, hnc, hcond, stopPortal]
    · simp [updatePortalCheck, portalHasTimedOut, hact, h0, hnc, hcond]

/-- Claim C3 witness: a portal opened at t = 100 ms with a 30 s timeout, no
AP-client check, checked at t = 40101 ms with no stations attached. -/
theorem portal_timeout_monotone_witness :
    (openPortalState.portalTimeoutMs = 0 →
      (updatePortalCheck openPortalState 40101 0).portalActive = true)
    ∧ (0 < openPortalState.portalTimeoutMs →
        ((updatePortalCheck openPortalState 40101 0).portalActive = false ↔
          openPortalState.portalTimeoutMs <
            40101 - (if openPortalState.webClientCheck = true
                     then openPortalState.lastHttpAccess
                     else openPortalState.portalStart))) :=
  portal_timeout_monotone openPortalState 40101 0 rfl (fun _ => rfl)

/-- Claim C4 counterexample: with `portalTimeoutMs = 0`, an attached AP
client and the client check enabled, the tick does NOT reset the portal
start time to now — the zero-timeout early return fires first, leaving
`portalStart` at its old value, contrary to the claimed "each such tick
extends the activity window". -/
theorem ap_client_override_counterexample :
    apCheckNoTimeoutState.portalActive = true
    ∧ apCheckNoTimeoutState.apClientCheck = true
    ∧ (portalHasTimedOut apCheckNoTimeoutState 100 1).1 = false
    ∧ (portalHasTimedOut apCheckNoTimeoutState 100 1).2.portalStart = 5
    ∧ ((portalHasTimedOut apCheckNoTimeoutState 100 1).2.portalStart = 100 → False) := by
  refine ⟨rfl, rfl, rfl, rfl, ?_⟩
  intro h
  exact absurd h (by decide)

/-- Claim C4 as amended: while the portal is active, the AP-client check is
on and at least one station is attached, the timeout never fires on any
tick and the tick keeps the portal open; the `portalStart := now` extension
of the activity window happens whenever `portalTimeoutMs > 0` (with
`portalTimeoutMs = 0` the zero-timeout early return leaves `portalStart`
unchanged). -/
theorem ap_client_override_amended (s : WMState) (now stations : Nat)
    (hact : s.portalActive = true) (hc : s.apClientCheck = true)
    (hs : 0 < stations) :
    (portalHasTimedOut s now stations).1 = false
    ∧ (updatePortalCheck s now stations).portalActive = true
    ∧ (0 < s.portalTimeoutMs →
        (portalHasTimedOut s now stations).2 = { s with portalStart := now }) := by
  refine ⟨?_, ?_, ?_⟩
  · by_cases h0 : s.portalTimeoutMs = 0
    · simp [portalHasTimedOut, h0]
    · simp [portalHasTimedOut, h0, hc, hs]
  · by_cases h0 : s.portalTimeoutMs = 0
    · simp [updatePortalCheck, portalHasTimedOut, h0, hact]
    · simp [updatePortalCheck, portalHasTimedOut, h0, hc, hs, hact]
  · intro hpos
    have h0 : ¬(s.portalTimeoutMs = 0) := by omega
    simp [portalHasTimedOut, h0, hc, hs]

/-- Claim C4 witness: an active portal with a 30 s timeout, client check
on, one station attached, far past the timeout. -/
theorem ap_client_override_amended_witness :
    (portalHasTimedOut apCheckTimeoutState 999999 1).1 = false
    ∧ (updatePortalCheck apCheckTimeoutState 999999 1).portalActive = true
    ∧ (0 < apCheckTimeoutState.portalTimeoutMs →
        (portalHasTimedOut apCheckTimeoutState 999999 1).2
          = { apCheckTimeoutState with portalStart := 999999 }) :=
  ap_client_override_amended apCheckTimeoutState 999999 1 rfl rfl (by decide)

/-- Claim C7 counterexample: on a connected tick the reconnection driver
records the connection and takes no further action, but it does NOT reset
the failure window — a state holding `failCount = 2`, `failWindowStart = 5`
keeps both values, contradicting the claimed reset to {0, 0}. -/
theorem connected_tick_counterexample :
    (reintentarConexionSiNecesario twoFailuresState 100 true false 0).1.connected = true
    ∧ (reintentarConexionSiNecesario twoFailuresState 100 true false 0).2 = false
    ∧ (reintentarConexionSiNecesario twoFailuresState 100 true false 0).1.failCount = 2
    ∧ (reintentarConexionSiNecesario twoFailuresState 100 true false 0).1.failWindowStart
        = 5
    ∧ ((reintentarConexionSiNecesario twoFailuresState 100 true false 0).1.failCount = 0
        ∧ (reintentarConexionSiNecesario
            twoFailuresState 100 true false 0).1.failWindowStart = 0
        → False) := by
  refine ⟨rfl, rfl, rfl, rfl, ?_⟩
  rintro ⟨h, -⟩
  exact absurd h (by decide)

/-- Claim C7 as amended: on a connected tick (with auto-reconnect enabled)
the driver sets `connected := true` and returns with no further action —
no connection attempt and no portal decision — leaving every other field,
including the FailureWindow, unchanged. -/
theorem connected_tick_amended (s : WMState) (now : Nat) (ok : Bool) (na : Nat)
    (ha : s.autoReconnect = true) :
    reintentarConexionSiNecesario s now true ok na = ({ s with connected := true }, false) := by
  simp [reintentarConexionSiNecesario, ha]

/-- Claim C7 witness: the amended statement at the default state. -/
theorem connected_tick_amended_witness :
    reintentarConexionSiNecesario initState 100 true false 0
      = ({ initState with connected := true }, false) :=
  connected_tick_amended initState 100 false 0 rfl

/-- Whenever the reconnection driver actually begins a connection attempt,
it has first recorded the attempt time in `ultimoIntentoWiFi`. -/
theorem reintentar_attempt_sets_stamp (s : WMState) (now : Nat) (wc ok : Bool)
    (na : Nat) :
    (reintentarConexionSiNecesario s now wc ok na).2 = true →
    (reintentarConexionSiNecesario s now wc ok na).1.ultimoIntentoWiFi = now := by
  simp only [reintentarConexionSiNecesario]
  split_ifs <;> intro h <;>
    first
      | rfl
      | exact (smartRetryOnFail_frame _ _).2.1
      | simp at h

/-- While the elapsed time since the last recorded attempt is below the
backoff, a disconnected invocation of the driver begins no attempt. -/
theorem reintentar_backoff_guard (s : WMState) (now : Nat) (ok : Bool) (na : Nat)
    (hug : now - s.ultimoIntentoWiFi < s.reconnectBackoffMs) :
    (reintentarConexionSiNecesario s now false ok na).2 = false := by
  simp only [reintentarConexionSiNecesario]
  split_ifs <;> rfl

/-- Claim C6: two disconnected invocations of the reconnection driver whose
request times are less than `reconnectBackoffMs` apart issue at most one
actual connection attempt — if the first began an attempt, the second
returns inside the backoff guard without beginning one. -/
theorem backoff_at_most_one_attempt (s : WMState) (t1 t2 : Nat) (ok1 ok2 : Bool)
    (na1 na2 : Nat)
    (h : t2 - t1 < s.reconnectBackoffMs) :
    ¬((reintentarConexionSiNecesario s t1 false ok1 na1).2 = true
      ∧ (reintentarConexionSiNecesario
          (reintentarConexionSiNecesario s t1 false ok1 na1).1 t2 false ok2 na2).2
        = true) := by
  rintro ⟨h1, h2⟩
  have hst := reintentar_attempt_sets_stamp s t1 false ok1 na1 h1
  have hfr := reintentar_frame s t1 false ok1 na1
  have hnone : (reintentarConexionSiNecesario
      (reintentarConexionSiNecesario s t1 false ok1 na1).1 t2 false ok2 na2).2
      = false := by
    apply reintentar_backoff_guard
    rw [hst, hfr.2.1]
    exact h
  rw [hnone] at h2
  exact absurd h2 (by decide)

/-- Claim C6 witness: a credentialed manager, first request at t = 20000 ms
(attempt succeeds), second at t = 25000 ms, backoff 10000 ms. -/
theorem backoff_at_most_one_attempt_witness :
    ¬((reintentarConexionSiNecesario credentialedState 20000 false true 0).2 = true
      ∧ (reintentarConexionSiNecesario
          (reintentarConexionSiNecesario credentialedState 20000 false true 0).1
          25000 false true 0).2 = true) :=
  backoff_at_most_one_attempt credentialedState 20000 25000 true true 0 0 (by decide)

/-- Claim C10: invoked while disconnected, past the backoff, but with an
empty stored ssid or password, the driver issues no connection attempt yet
still stamps `ultimoIntentoWiFi := now`; a subsequent invocation within
`reconnectBackoffMs` therefore begins no attempt either, even if a
credential has been stored in the meantime. -/
theorem empty_cred_stamps_backoff (s : WMState) (t1 t2 : Nat) (ok1 ok2 : Bool)
    (na1 na2 : Nat) (ss pp : String)
    (hauto : s.autoReconnect = true)
    (hcred : s.ssid = "" ∨ s.password = "")
    (hpast : s.reconnectBackoffMs ≤ t1 - s.ultimoIntentoWiFi)
    (hsoon : t2 - t1 < s.reconnectBackoffMs) :
    (reintentarConexionSiNecesario s t1 false ok1 na1).2 = false
    ∧ (reintentarConexionSiNecesario s t1 false ok1 na1).1.ultimoIntentoWiFi = t1
    ∧ (reintentarConexionSiNecesario
        { (reintentarConexionSiNecesario s t1 false ok1 na1).1 with
          ssid := ss, password := pp } t2 false ok2 na2).2 = false := by
  have hr1 : reintentarConexionSiNecesario s t1 false ok1 na1
      = ({ s with connected := false, ultimoIntentoWiFi := t1 }, false) := by
    have h1 : ¬(s.autoReconnect = false) := by simp [hauto]
    have h3 : ¬(t1 - s.ultimoIntentoWiFi < s.reconnectBackoffMs) := by omega
    rcases hcred with hx | hx <;>
      simp [reintentarConexionSiNecesario, hasNonEmptyCreds, h1, h3, hx]
  refine ⟨by rw [hr1], by rw [hr1], ?_⟩
  rw [hr1]
  apply reintentar_backoff_guard
  simpa using hsoon

/-- Claim C10 witness: the default credential-less manager, first request at
t = 10000 ms, credential "x"/"y" saved before the second request at
t = 15000 ms (backoff 10000 ms). -/
theorem empty_cred_stamps_backoff_witness :
    (reintentarConexionSiNecesario initState 10000 false true 0).2 = false
    ∧ (reintentarConexionSiNecesario initState 10000 false true 0).1.ultimoIntentoWiFi
        = 10000
    ∧ (reintentarConexionSiNecesario
        { (reintentarConexionSiNecesario initState 10000 false true 0).1 with
          ssid := "x", password := "y" } 15000 false true 0).2 = false :=
  empty_cred_stamps_backoff initState 10000 15000 true true 0 0 "x" "y" rfl
    (Or.inl rfl) (by decide) (by decide)

/-- Claim C2: under SMART_RETRIES with `maxFailRetries = 3` and
`failWindowMs = 60000`, starting from an empty failure window, each failed
reconnection attempt increments the counter (opening a fresh window on the
first failure); the third consecutive failure within 60 s issues exactly
one portal-open and resets the counter and window start to zero; a fourth
failure after that reset starts a fresh count of one (and issues no second
open). -/
theorem smart_retries_accumulation (s : WMState) (t1 t2 t3 t4 : Nat)
    (hp : s.fallbackPolicy = FallbackPolicy.SMART_RETRIES)
    (hm : s.maxFailRetries = 3) (hw : s.failWindowMs = 60000)
    (hc : s.failCount = 0) (hws : s.failWindowStart = 0)
    (hpa : s.portalActive = false)
    (h1 : 0 < t1) (h12 : t1 ≤ t2) (h23 : t2 ≤ t3) (hwin : t3 - t1 ≤ 60000) :
    (smartFailSeq s [t1]).1.failCount = 1
    ∧ (smartFailSeq s [t1]).1.failWindowStart = t1
    ∧ (smartFailSeq s [t1]).2 = 0
    ∧ (smartFailSeq s [t1, t2]).1.failCount = 2
    ∧ (smartFailSeq s [t1, t2]).2 = 0
    ∧ (smartFailSeq s [t1, t2, t3]).1.failCount = 0
    ∧ (smartFailSeq s [t1, t2, t3]).1.failWindowStart = 0
    ∧ (smartFailSeq s [t1, t2, t3]).1.portalActive = true
    ∧ (smartFailSeq s [t1, t2, t3]).2 = 1
    ∧ (smartFailSeq s [t1, t2, t3, t4]).1.failCount = 1
    ∧ (smartFailSeq s [t1, t2, t3, t4]).1.failWindowStart = t4
    ∧ (smartFailSeq s [t1, t2, t3, t4]).2 = 1 := by
  have hno2 : ¬(t1 = 0 ∨ (60000 : Nat) < t2 - t1) := by omega
  have hno3 : ¬(t1 = 0 ∨ (60000 : Nat) < t3 - t1) := by omega
  have e1 : smartRetryOnFail s t1
      = ({ s with failCount := 1, failWindowStart := t1 }, false) := by
    norm_num [smartRetryOnFail, hp, hm, hw, hc, hws]
  have e2 : smartRetryOnFail { s with failCount := 1, failWindowStart := t1 } t2
      = ({ s with failCount := 2, failWindowStart := t1 }, false) := by
    norm_num [smartRetryOnFail, hp, hm, hw, hno2]
  have e3 : smartRetryOnFail { s with failCount := 2, failWindowStart := t1 } t3
      = ({ s with
            dnsRunning := s.captiveEnabled
            portalActive := true
            portalStart := t3
            lastHttpAccess := t3
            failCount := 0
            failWindowStart := 0 }, true) := by
    norm_num [smartRetryOnFail, startPortal, hp, hm, hw, hpa, hno3]
  have e4 : smartRetryOnFail
      { s with
        dnsRunning := s.captiveEnabled
        portalActive := true
        portalStart := t3
        lastHttpAccess := t3
        failCount := 0
        failWindowStart := 0 } t4
      = ({ s with
            dnsRunning := s.captiveEnabled
            portalActive := true
            portalStart := t3
            lastHttpAccess := t3
            failCount := 1
            failWindowStart := t4 }, false) := by
    norm_num [smartRetryOnFail, hp, hm]
  refine ⟨?_, ?_, ?_, ?_, ?_, ?_, ?_, ?_, ?_, ?_, ?_, ?_⟩ <;>
    simp [smartFailSeq, e1, e2, e3, e4]

/-- Claim C2 witness: the SMART_RETRIES-configured default manager with
failures at t = 1000, 2000, 3000 ms and a late fourth failure at
t = 70000 ms. -/
theorem smart_retries_accumulation_witness :
    (smartFailSeq smartConfigState [1000]).1.failCount = 1
    ∧ (smartFailSeq smartConfigState [1000]).1.failWindowStart = 1000
    ∧ (smartFailSeq smartConfigState [1000]).2 = 0
    ∧ (smartFailSeq smartConfigState [1000, 2000]).1.failCount = 2
    ∧ (smartFailSeq smartConfigState [1000, 2000]).2 = 0
    ∧ (smartFailSeq smartConfigState [1000, 2000, 3000]).1.failCount = 0
    ∧ (smartFailSeq smartConfigState [1000, 2000, 3000]).1.failWindowStart = 0
    ∧ (smartFailSeq smartConfigState [1000, 2000, 3000]).1.portalActive = true
    ∧ (smartFailSeq smartConfigState [1000, 2000, 3000]).2 = 1
    ∧ (smartFailSeq smartConfigState [1000, 2000, 3000, 70000]).1.failCount = 1
    ∧ (smartFailSeq smartConfigState [1000, 2000, 3000, 70000]).1.failWindowStart
        = 70000
    ∧ (smartFailSeq smartConfigState [1000, 2000, 3000, 70000]).2 = 1 :=
  smart_retries_accumulation smartConfigState 1000 2000 3000 70000 rfl rfl rfl rfl
    rfl rfl (by decide) (by decide) (by decide) (by decide)

end AWM
